import Mathlib

/-!
Verification of the jtlog data-acquisition pipeline (jtlogc.py, ti2c.py).

Shallow embedding of the pure cores of the program:

* the MCP3421 mode table and the raw-sample decode step
  (`tempsensor.read_status` / `tempsensor.read_sensor`, ti2c.py:206-243);
* the temperature "cooking" and unit conversion
  (`tempsensor.read_status` ti2c.py:225, `tempsensor.get_tempcooked` ti2c.py:162-178);
* the address mapping (`tempsensor.set_address`, ti2c.py:107-117) and the
  mode selection (`tempsensor.set_mode`, ti2c.py:118-125) with Python list
  indexing semantics for the constructor's table lookup (ti2c.py:95);
* the busy/ready edge-detection loop of the acquisition task
  (`sensorbackend.__sensoroneshottask`, jtlogc.py:550-577);
* the row-assembly and sentinel test of the log-merge task
  (`datalogger.__logwriter`, jtlogc.py:397-447), including the header
  layout and the end-time overwrite on quit;
* the teardown event sequence (`appconfig.endsensorframework`,
  jtlogc.py:278-331).

Machine integers are modelled as `Nat`/`Int`, floats as `Rat`.
-/

/-! ## Mode table (ti2c.py:74) -/

/-- One row of the `tempsensor.mcp3421` table:
(bit resolution, sample rate, sample data mask, configuration byte). -/
structure McpMode where
  bits : Nat
  rate : Rat
  mask : Nat
  cfg  : Nat
deriving DecidableEq

/-- `tempsensor.mcp3421` (ti2c.py:74): the four conversion modes. -/
def mcp3421 : List McpMode :=
  [⟨12, 240, 0x7ff, 0x10⟩, ⟨14, 60, 0x1fff, 0x14⟩,
   ⟨16, 15, 0x7fff, 0x18⟩, ⟨18, 3.75, 0x1ffff, 0x1c⟩]

/-- Table lookup for an in-range mode index. -/
def mcpMode (m : Fin 4) : McpMode := mcp3421.get ⟨m.val, m.isLt⟩

/-! ## Raw sample decode (ti2c.py:206-243)

`read_status` / `read_sensor` assemble the transmitted bytes (three data
bytes in 18-bit mode, two otherwise), mask with the mode's sample mask, and
subtract `mask + 1` when bit 0x80 of the first transmitted byte is set. -/

/-- The decode step of `tempsensor.read_sensor` (ti2c.py:228-243), as a pure
function of the mode and the transmitted data bytes `b0 b1 b2` (`b2` is
only used in 18-bit mode; the trailing status byte does not enter the
value). -/
def decodeRaw (m : Fin 4) (b0 b1 b2 : Nat) : Int :=
  let md := mcpMode m
  let raw0 : Nat := if md.bits = 18 then b2 + (b1 <<< 8) + (b0 <<< 16) else b1 + (b0 <<< 8)
  let masked : Nat := raw0 &&& md.mask
  if b0 &&& 0x80 ≠ 0 then (masked : Int) - ((md.mask : Int) + 1) else (masked : Int)

/-! ## Cooking and unit conversion (ti2c.py:90-105, 159-178, 225) -/

/-- The clamping of the `units` argument in `tempsensor.__init__`
(ti2c.py:99-103). -/
def clampUnits (u : Int) : Int := if u < 0 then 0 else if u > 2 then 2 else u

/-- `self.cooked = self.raw * self.slope + self.intercept`
(ti2c.py:225, 242): the native ("Celsius by default") cooked value. -/
def cookNative (raw : Int) (slope intercept : Rat) : Rat := raw * slope + intercept

/-- `tempsensor.get_tempcooked` (ti2c.py:162-169): dispatches on `units`
to `get_tempC` / `get_tempK` / `get_tempF` (ti2c.py:170-178); Python
returns `None` for a `units` value outside 0..2, hence `Option`. -/
def get_tempcooked (units : Int) (cooked : Rat) : Option Rat :=
  if units = 0 then some cooked
  else if units = 1 then some (cooked + 273.15)
  else if units = 2 then some (cooked * 9 / 5 + 32)
  else none

/-- The emission step of `sensorbackend.__sensoroneshottask`
(jtlogc.py:563-568): `raw = get_tempraw(); cooked = get_tempcooked()`,
then one `(address, raw, cooked)` tuple to the log queue and the pair
`raw`, `cooked` to the display queue.  The same `cooked` variable feeds
both queues. -/
def backendEmit (addr raw : Int) (slope intercept : Rat) (units : Int) :
    (Int × Int × Option Rat) × (Int × Option Rat) :=
  let cooked := get_tempcooked (clampUnits units) (cookNative raw slope intercept)
  ((addr, raw, cooked), (raw, cooked))

/-! ## Address mapping (ti2c.py:69, 107-117) -/

/-- `tempsensor.i2caddress` (ti2c.py:69): the eight possible bus addresses. -/
def i2caddress : List Int := [0x68, 0x69, 0x6a, 0x6b, 0x6c, 0x6d, 0x6e, 0x6f]

/-- `tempsensor.set_address` (ti2c.py:107-117): an index 0..7 is mapped
through the table; a value already in the table maps to itself; anything
else stores address 0. -/
def set_address (address : Int) : Int :=
  if 0 ≤ address ∧ address < 8 then i2caddress.getD address.toNat 0
  else if address ∈ i2caddress then address
  else 0

/-- The sensor address carried by every sample a backend pushes
(jtlogc.py:566: `self.qfileio.put((self.sensor.address, raw, cooked))`),
as a function of the configured address. -/
def backendSampleAddr (cfgaddr : Int) : Int := set_address cfgaddr

/-- The address field of the sentinel tuple `(0, 0, 0.0)` pushed by
`appconfig.endsensorframework` (jtlogc.py:297). -/
def sentinelAddr : Int := 0

/-! ## Mode selection (ti2c.py:75, 118-125) with Python indexing -/

/-- The class-level default `tempsensor.mode = 3` (ti2c.py:75). -/
def tempsensorClassMode : Int := 3

/-- `tempsensor.set_mode` (ti2c.py:118-125).  The guards test the
pre-existing attribute `self.mode` (`selfMode` here), not the argument;
only the `else` branch stores the argument. -/
def set_mode (selfMode arg : Int) : Int :=
  if selfMode < 0 then 0
  else if selfMode > 3 then 3
  else arg

/-- Python list indexing `l[i]`: valid for `-len(l) ≤ i < len(l)`, with
negative indexes counting from the end; otherwise an `IndexError`
(modelled as `none`). -/
def pyListGet (l : List McpMode) (i : Int) : Option McpMode :=
  if 0 ≤ i ∧ i < l.length then l.get? i.toNat
  else if -(l.length : Int) ≤ i ∧ i < 0 then l.get? (i + l.length).toNat
  else none

/-- The constructor's table access `self.mcp3421[self.mode]`
(ti2c.py:95) after `set_mode` ran from the class default mode. -/
def ctorModeLookup (arg : Int) : Option McpMode :=
  pyListGet mcp3421 (set_mode tempsensorClassMode arg)

/-! ## Acquisition-task edge detection (jtlogc.py:550-577)

After the initial-ready phase the loop keeps a `triggered` flag; each
iteration observes `data_ready` and runs:
`if not triggered and not data_ready: triggered = True` then
`if triggered and data_ready: triggered = False; emit`. -/

/-- One iteration of the main loop of `__sensoroneshottask`
(jtlogc.py:556-569) as a function of the `triggered` flag and the
observed ready status; returns the new flag and whether this iteration
emitted a sample. -/
def oneShotStep (triggered ready : Bool) : Bool × Bool :=
  let t1 := if !triggered && !ready then true else triggered
  if t1 && ready then (false, true) else (t1, false)

/-- Run the loop over a sequence of ready observations, counting the
queue pushes: each emission is one tuple on the log queue and two items
(the raw/cooked pair) on the display queue (jtlogc.py:566-568). -/
def oneShotPushes : Bool → List Bool → Nat × Nat
  | _, [] => (0, 0)
  | t, r :: rs =>
    let s := oneShotStep t r
    let rest := oneShotPushes s.1 rs
    if s.2 then (rest.1 + 1, rest.2 + 2) else rest

/-- The number of not-ready→ready transitions in an observation sequence,
`prev` being the previous observation ( `true` initially: the task enters
the loop straight from the initial-ready phase, jtlogc.py:551-554). -/
def busyReadyEdges : Bool → List Bool → Nat
  | _, [] => 0
  | prev, r :: rs => (if !prev && r then 1 else 0) + busyReadyEdges r rs

/-! ## Log-merge row assembly (jtlogc.py:416-430) -/

/-- One sample tuple `(sensor address, raw sample, cooked temp)` as queued
to the log-merge task (jtlogc.py:424). -/
structure Sample where
  addr : Int
  raw : Int
  cooked : Rat
deriving DecidableEq

/-- The text written for one sensor: `',{:#4x},{:#7x},{:#7.3f},'`
(jtlogc.py:428) — a leading comma, the three formatted fields separated
by commas, and a trailing comma.  The numeric formatting itself is kept
abstract: the chunk takes the three already-formatted field strings. -/
def sensorChunk (f : List Char × List Char × List Char) : List Char :=
  [','] ++ f.1 ++ [','] ++ f.2.1 ++ [','] ++ f.2.2 ++ [',']

/-- The bytes written for one data row before the final seek-back:
the timestamp (whose format string `'%Y/%m/%d %H:%M:%S.{:03},'` ends in a
comma, jtlogc.py:426) followed by one `sensorChunk` per sensor. -/
def rowBody (ts : List Char) (fields : List (List Char × List Char × List Char)) : List Char :=
  ts ++ [','] ++ (fields.map sensorChunk).flatten

/-- A complete data row: after writing `rowBody` the task seeks back one
character and overwrites the final comma with a newline
(jtlogc.py:429-430). -/
def writeRowChars (ts : List Char) (fields : List (List Char × List Char × List Char)) :
    List Char :=
  (rowBody ts fields).dropLast ++ ['\n']

/-- The row format asserted by the specification (§6): timestamp then
every field separated by single commas, no trailing separator.  Stated
from the spec's words, for comparison with `writeRowChars`. -/
def specSingleCommaRow (ts : List Char) (fields : List (List Char × List Char × List Char)) :
    List Char :=
  ts ++ (fields.map fun f => [','] ++ f.1 ++ [','] ++ f.2.1 ++ [','] ++ f.2.2).flatten ++ ['\n']

/-- One `Running` iteration of `datalogger.__logwriter` after the
timestamp and one sample per sensor were taken (jtlogc.py:419-430):
writes a row exactly when the first collected sample's address is
nonzero.  `fmt` is the numeric field formatting (jtlogc.py:428), kept
abstract.  An empty sensor list would raise `IndexError` in the source
(`valsensor[0]`); the framework always builds one queue per sensor plus
the timestamp queue, so the writer only ever sees the configured
sensors. -/
def logMergeRow (fmt : Sample → List Char × List Char × List Char)
    (ts : List Char) (vals : List Sample) : Option (List Char) :=
  match vals with
  | [] => none
  | v :: _ => if v.addr ≠ 0 then some (writeRowChars ts (vals.map fmt)) else none

/-! ## Initial control states (jtlogc.py:414, 469, 647) -/

/-- `msg = 'r'` — "initial state is running." (jtlogc.py:414). -/
def logwriterInitMsg : Char := 'r'

/-- `msg = 'h'` (jtlogc.py:469): the global trigger starts halted. -/
def triggerInitMsg : Char := 'h'

/-- `msg = 'h'` (jtlogc.py:647): the display task starts halted. -/
def displayInitMsg : Char := 'h'

/-- In which control state `__logwriter` performs its blocking queue
takes and possibly writes (jtlogc.py:417-430); otherwise it sleeps. -/
def logwriterBlocksForData (msg : Char) : Bool := msg == 'r'

/-- In which control state `__trigger` issues the broadcast trigger and
pushes a timestamp (jtlogc.py:472-478). -/
def triggerIssuesTrigger (msg : Char) : Bool := msg == 'r'

/-- In which control states `__sensordisplaytask` drains its queue
(jtlogc.py:649-667): while running it drains into the history, while
halted it drains and discards; only `quit` leaves the queue alone. -/
def displayDrainsQueue (msg : Char) : Bool := msg != 'q'

/-- In which control state `__sensordisplaytask` updates its history
buffer (jtlogc.py:649-660). -/
def displayUpdatesHistory (msg : Char) : Bool := msg == 'r'

/-! ## Teardown event sequence (jtlogc.py:278-331) -/

/-- The externally visible actions of `appconfig.endsensorframework`, in
program order: mailbox puts, the non-blocking wait for the log queues to
empty, sentinel and timestamp pushes, display-queue unblock pushes, and
thread joins. -/
inductive TEvent where
  | mput (tid : Nat) (c : Char)
  | awaitLogEmpty
  | sput (i : Nat)
  | tsput
  | jlog
  | dput (i : Nat)
  | jdisp (i : Nat)
  | jback (i : Nat)
  | jtrig
deriving DecidableEq

/-- The event sequence of `appconfig.endsensorframework`
(jtlogc.py:278-331) for `n` configured sensors.  Mailbox numbering
follows jtlogc.py:222-227: backends are mailboxes `0..n-1`, displays
`n..2n-1`, the log writer `2n`, the trigger `2n+1`. -/
def endsensorframeworkEvents (n : Nat) : List TEvent :=
  TEvent.mput (2 * n) 'q' :: TEvent.awaitLogEmpty ::
  ((List.range n).map TEvent.sput ++
    TEvent.tsput :: TEvent.jlog ::
    ((List.range n).map (fun i => TEvent.mput (n + i) 'q') ++
      ((List.range n).map (fun i => [TEvent.dput i, TEvent.dput i])).flatten ++
      (List.range n).map TEvent.jdisp ++
      ((List.range n).map (fun i => TEvent.mput i 'q') ++
        ((List.range n).map TEvent.jback ++
          [TEvent.mput (2 * n + 1) 'q', TEvent.jtrig]))))

/-! ## Log file header and end-time overwrite (jtlogc.py:397-408, 442-444) -/

/-- Overwrite-in-place at a byte offset: what `seek(pos)` followed by
`write(r)` does to a file's contents. -/
def overwriteAt (s : List Char) (pos : Nat) (r : List Char) : List Char :=
  s.take pos ++ r ++ s.drop (pos + r.length)

/-- `'Filename: ' + log + '\n'` (jtlogc.py:401). -/
def filenameLine (log : List Char) : List Char := "Filename: ".toList ++ log ++ ['\n']

/-- `'Start time: ' + time.asctime() + '\n'` (jtlogc.py:404). -/
def startTimeLine (t1 : List Char) : List Char := "Start time: ".toList ++ t1 ++ ['\n']

/-- The placeholder `'dnE time: ' + time.asctime() + '\n'`
(jtlogc.py:407), overwritten on quit. -/
def endPlaceholderLine (t2 : List Char) : List Char := "dnE time: ".toList ++ t2 ++ ['\n']

/-- `'Sample period: ' + str(sampleperiod) + ' seconds.\n'` (jtlogc.py:408). -/
def samplePeriodLine (sp : List Char) : List Char :=
  "Sample period: ".toList ++ sp ++ " seconds.\n".toList

/-- `endstamp` (jtlogc.py:402, 405): the byte offset recorded while
writing the first two header lines. -/
def endstamp (log t1 : List Char) : Nat :=
  (filenameLine log).length + (startTimeLine t1).length

/-- The log file contents when the quit message arrives: the four header
lines followed by the accumulated data rows. -/
def logFileBeforeQuit (log t1 t2 sp rows : List Char) : List Char :=
  filenameLine log ++ startTimeLine t1 ++ endPlaceholderLine t2 ++ samplePeriodLine sp ++ rows

/-- The finalization on quit (jtlogc.py:442-443): `seek(endstamp)` then
`write('End time: ' + time.asctime())`. -/
def logFileFinal (log t1 t2 sp rows t3 : List Char) : List Char :=
  overwriteAt (logFileBeforeQuit log t1 t2 sp rows) (endstamp log t1) ("End time: ".toList ++ t3)

/-! # Theorems -/

/-! ## C1: exactly one emission per busy→ready edge -/

/-- The loop's queue-push counts over any observation sequence equal the
edge count; `!t` plays the role of the previous observation (`triggered`
is set exactly when a not-ready was seen since the last emission). -/
theorem oneShotPushes_eq_edges (t : Bool) (obs : List Bool) :
    oneShotPushes t obs = (busyReadyEdges (!t) obs, 2 * busyReadyEdges (!t) obs) := by
  induction obs generalizing t with
  | nil => rfl
  | cons r rs ih =>
    cases t <;> cases r <;>
      (simp [oneShotPushes, oneShotStep, busyReadyEdges, ih]; try omega)

/-- Claim C1: for every sequence of ready observations after the
initial-ready phase, the acquisition task pushes exactly one log tuple
and one raw/cooked display pair per not-ready→ready transition, and
pushes nothing on a sustained-ready or sustained-not-ready sequence (so
a ready observation without an intervening not-ready never re-emits). -/
theorem sensoroneshottask_emits_once_per_edge (obs : List Bool) (n : Nat) :
    (oneShotPushes false obs).1 = busyReadyEdges true obs ∧
    (oneShotPushes false obs).2 = 2 * busyReadyEdges true obs ∧
    (oneShotPushes false (List.replicate n true)).1 = 0 ∧
    (oneShotPushes false (List.replicate n false)).1 = 0 := by
  have e2 : ∀ m : Nat, busyReadyEdges true (List.replicate m true) = 0 := by
    intro m
    induction m with
    | zero => rfl
    | succ k ihk => simpa [List.replicate, busyReadyEdges] using ihk
  have e3 : ∀ (p : Bool) (m : Nat), busyReadyEdges p (List.replicate m false) = 0 := by
    intro p m
    induction m generalizing p with
    | zero => rfl
    | succ k ihk => simp [List.replicate, busyReadyEdges, ihk]
  refine ⟨?_, ?_, ?_, ?_⟩
  · simp [oneShotPushes_eq_edges]
  · simp [oneShotPushes_eq_edges]
  · simp [oneShotPushes_eq_edges, e2 n]
  · simp [oneShotPushes_eq_edges, e3 true n]

/-! ## C2: a row is written iff the first sample's address is nonzero -/

/-- Claim C2: the log-merge task writes a data row if and only if the
first collected sample has a nonzero address; a first sample carrying
the sentinel address 0 discards the whole row. -/
theorem logwriter_row_iff_first_addr_nonzero
    (fmt : Sample → List Char × List Char × List Char)
    (ts : List Char) (v : Sample) (rest : List Sample) :
    ((logMergeRow fmt ts (v :: rest)).isSome ↔ v.addr ≠ 0) ∧
    (logMergeRow fmt ts (v :: rest) = none ↔ v.addr = 0) := by
  by_cases h : v.addr = 0 <;> simp [logMergeRow, h]

/-! ## C3: the emitted cooked value is unit-converted, not raw×slope+intercept -/

/-- Claim C3 counterexample: a Kelvin-configured sensor (units = 1) with
raw = 0, slope = 1, intercept = 0 pushes cookedValue 273.15, not
rawValue × slope + intercept = 0: the emitted value is already
unit-converted. -/
theorem emitted_cooked_unit_converted_ce :
    (backendEmit 0x68 0 1 0 1).1.2.2 = some (27315 / 100 : Rat) ∧
    (27315 / 100 : Rat) ≠ cookNative 0 1 0 := by
  constructor
  · norm_num [backendEmit, get_tempcooked, clampUnits, cookNative]
  · norm_num [cookNative]

/-- Claim C3 amended: the cookedValue in every emitted sample is the
unit conversion applied to rawValue × slope + intercept (identity for
Celsius, +273.15 for Kelvin, ×9/5+32 for Fahrenheit); both queues
receive the same value, and only for Celsius does it equal
rawValue × slope + intercept. -/
theorem emitted_cooked_eq_unit_converted (addr raw : Int) (slope intercept : Rat) (u : Int) :
    (backendEmit addr raw slope intercept u).1.2.2 =
      some (if clampUnits u = 0 then cookNative raw slope intercept
            else if clampUnits u = 1 then cookNative raw slope intercept + 273.15
            else cookNative raw slope intercept * 9 / 5 + 32) ∧
    (backendEmit addr raw slope intercept u).2.2 = (backendEmit addr raw slope intercept u).1.2.2 ∧
    (backendEmit addr raw slope intercept 0).1.2.2 = some (cookNative raw slope intercept) := by
  have hc : clampUnits u = 0 ∨ clampUnits u = 1 ∨ clampUnits u = 2 := by
    unfold clampUnits
    split
    · exact Or.inl rfl
    · split
      · exact Or.inr (Or.inr rfl)
      · omega
  refine ⟨?_, rfl, by norm_num [backendEmit, get_tempcooked, clampUnits]⟩
  rcases hc with h | h | h <;> simp [backendEmit, get_tempcooked, h]

/-! ## C4: decode range -/

/-- Claim C4 counterexample: in mode 0 (advertised 12 bits, sample mask
0x7ff) the transmitted bytes 0x80, 0x00 decode to −2048, which lies
outside the claimed range [−(M+1)/2, −1] = [−1024, −1] for the mode's
sample mask M. -/
theorem decode_range_claim_ce :
    decodeRaw 0 0x80 0 0 = -2048 ∧
    ¬(-(((mcpMode 0).mask : Int) + 1) / 2 ≤ decodeRaw 0 0x80 0 0) := by
  decide

/-- Claim C4 amended: for every mode and all transmitted data bytes, the
decoded raw value lies in [−(M+1), −1] when bit 0x80 of the first
transmitted byte is set and in [0, M] otherwise, where M is the mode's
sample mask; M equals 2^(W−1) − 1 for the mode's advertised bit-width W
(one bit short of 2^W − 1). -/
theorem decode_range_bounds (m : Fin 4) (b0 b1 b2 : Nat) :
    (if b0 &&& 0x80 ≠ 0
      then -(((mcpMode m).mask : Int) + 1) ≤ decodeRaw m b0 b1 b2 ∧
        decodeRaw m b0 b1 b2 ≤ -1
      else 0 ≤ decodeRaw m b0 b1 b2 ∧
        decodeRaw m b0 b1 b2 ≤ ((mcpMode m).mask : Int)) ∧
    (mcpMode m).mask = 2 ^ ((mcpMode m).bits - 1) - 1 := by
  constructor
  · simp only [decodeRaw]
    set r0 := if (mcpMode m).bits = 18 then b2 + (b1 <<< 8) + (b0 <<< 16)
      else b1 + (b0 <<< 8) with hr0
    have h : (r0 &&& (mcpMode m).mask) ≤ (mcpMode m).mask := Nat.and_le_right
    split_ifs with hc
    · constructor <;> omega
    · constructor <;> omega
  · have hall : ∀ k : Fin 4, (mcpMode k).mask = 2 ^ ((mcpMode k).bits - 1) - 1 := by decide
    exact hall m

/-! ## C6: initial control states -/

/-- Claim C6 counterexample: the log-merge task does not start halted:
its initial control state is `'r'` and in that state it performs its
blocking data takes (and row writes) before any `run` message. -/
theorem logwriter_starts_running_ce :
    logwriterInitMsg ≠ 'h' ∧ logwriterInitMsg = 'r' ∧
    logwriterBlocksForData logwriterInitMsg = true := by
  decide

/-- Claim C6 amended: the global trigger and display tasks start halted
(the trigger fires nothing and the display updates no history in that
state, though a halted display still drains and discards its queue),
while the log-merge task starts in the running state and consumes data
before any `run` message. -/
theorem initial_task_states :
    triggerInitMsg = 'h' ∧ displayInitMsg = 'h' ∧
    triggerIssuesTrigger triggerInitMsg = false ∧
    displayUpdatesHistory displayInitMsg = false ∧
    displayDrainsQueue displayInitMsg = true ∧
    logwriterInitMsg = 'r' ∧ logwriterBlocksForData logwriterInitMsg = true := by
  decide

/-! ## C5: teardown ordering around the log-merge quit message -/

/-- Claim C5 counterexample: in the teardown sequence for one sensor the
quit message is placed in the log-merge mailbox (event index 0) before
the non-blocking wait for the queues to empty (index 1) and before the
sentinel push (index 2), not after them. -/
theorem teardown_wait_before_quit_ce :
    ¬((endsensorframeworkEvents 1).indexOf TEvent.awaitLogEmpty <
      (endsensorframeworkEvents 1).indexOf (TEvent.mput 2 'q')) ∧
    ¬((endsensorframeworkEvents 1).indexOf (TEvent.sput 0) <
      (endsensorframeworkEvents 1).indexOf (TEvent.mput 2 'q')) := by
  decide

/-- Claim C5 amended: teardown enqueues `quit` to the log-merge mailbox
first (index 0); only then does it wait for every per-sensor log queue
and the timestamp queue to empty (index 1), push one sentinel per sensor
(indexes 2..n+1) and one timestamp (index n+2), and join the log-merge
thread (index n+3).  The sentinel is still consumed before the quit
takes effect because the mailbox is only polled after a completed row. -/
theorem teardown_event_order (n i : Nat) (h : i < n) :
    (endsensorframeworkEvents n)[0]? = some (TEvent.mput (2 * n) 'q') ∧
    (endsensorframeworkEvents n)[1]? = some TEvent.awaitLogEmpty ∧
    (endsensorframeworkEvents n)[i + 2]? = some (TEvent.sput i) ∧
    (endsensorframeworkEvents n)[n + 2]? = some TEvent.tsput ∧
    (endsensorframeworkEvents n)[n + 3]? = some TEvent.jlog := by
  unfold endsensorframeworkEvents
  refine ⟨rfl, by simp, ?_, ?_, ?_⟩
  · rw [show i + 2 = i + 1 + 1 from rfl, List.getElem?_cons_succ, List.getElem?_cons_succ,
      List.getElem?_append_left (by simpa using h)]
    simp [List.getElem?_range h]
  · rw [show n + 2 = n + 1 + 1 from rfl, List.getElem?_cons_succ, List.getElem?_cons_succ,
      List.getElem?_append_right (by simp)]
    simp
  · rw [show n + 3 = n + 1 + 1 + 1 from rfl, List.getElem?_cons_succ, List.getElem?_cons_succ,
      List.getElem?_append_right (by simp)]
    simp [Nat.add_sub_cancel_left]

/-- Witness for `teardown_event_order` at two sensors, first sentinel. -/
theorem teardown_event_order_witness :
    0 < 2 ∧
    ((endsensorframeworkEvents 2)[0]? = some (TEvent.mput (2 * 2) 'q') ∧
      (endsensorframeworkEvents 2)[1]? = some TEvent.awaitLogEmpty ∧
      (endsensorframeworkEvents 2)[0 + 2]? = some (TEvent.sput 0) ∧
      (endsensorframeworkEvents 2)[2 + 2]? = some TEvent.tsput ∧
      (endsensorframeworkEvents 2)[2 + 3]? = some TEvent.jlog) :=
  ⟨by decide, teardown_event_order 2 0 (by decide)⟩

/-! ## C7: data-row separator layout -/

/-- A sensor group as it actually appears inside a row: a double comma,
then the three formatted fields separated by single commas. -/
def doubledChunk (f : List Char × List Char × List Char) : List Char :=
  [','] ++ [','] ++ f.1 ++ [','] ++ f.2.1 ++ [','] ++ f.2.2

/-- Shifting the row's leading comma through the per-sensor chunks turns
each chunk's trailing comma into the next chunk's second leading comma. -/
theorem comma_flatten_shift (fields : List (List Char × List Char × List Char)) :
    [','] ++ (fields.map sensorChunk).flatten = (fields.map doubledChunk).flatten ++ [','] := by
  induction fields with
  | nil => rfl
  | cons f fs ih =>
    simp only [List.map_cons, List.flatten_cons, sensorChunk, doubledChunk,
      List.append_assoc, List.cons_append, List.nil_append] at ih ⊢
    rw [ih]

/-- Claim C7 counterexample: with one sensor the written row is not the
single-comma format of the claim; the actual row contains a double
comma (between the timestamp and the sensor group). -/
theorem logrow_single_comma_ce :
    writeRowChars "2020/01/01 00:00:00.000".toList
        [("0x68".toList, "0x100".toList, "71.000".toList)] ≠
      specSingleCommaRow "2020/01/01 00:00:00.000".toList
        [("0x68".toList, "0x100".toList, "71.000".toList)] ∧
    [',', ','] <:+: writeRowChars "2020/01/01 00:00:00.000".toList
        [("0x68".toList, "0x100".toList, "71.000".toList)] := by
  decide

/-- Claim C7 amended: every data row is the timestamp followed, for each
sensor in order, by a double comma and then the sensor's address, raw
and cooked fields separated by single commas, the row ending in a
newline with no trailing separator (the final comma is overwritten by
the newline). -/
theorem logrow_double_comma_format (ts : List Char)
    (fields : List (List Char × List Char × List Char)) :
    writeRowChars ts fields = ts ++ (fields.map doubledChunk).flatten ++ ['\n'] := by
  unfold writeRowChars rowBody
  rw [List.append_assoc, comma_flatten_shift, ← List.append_assoc, List.dropLast_concat]

/-! ## C8: end-time overwrite -/

/-- Overwriting a middle segment with a same-length replacement changes
exactly that segment. -/
theorem overwrite_exact (a b bp c : List Char) (h : bp.length = b.length) :
    overwriteAt (a ++ (b ++ c)) a.length bp = a ++ (bp ++ c) := by
  unfold overwriteAt
  rw [List.take_left, h,
    show a.length + b.length = (a ++ b).length from (List.length_append a b).symm,
    ← List.append_assoc, List.drop_left, List.append_assoc]

/-- Claim C8: on a graceful quit the log writer seeks to the byte offset
right after the Filename and Start-time lines (whose lengths were
recorded at write time) and overwrites the placeholder end-time text in
place with the real completion time; the replacement occupies exactly as
many bytes as the placeholder (given equal-width time strings, as
`time.asctime()` produces), and every other byte of the file is
unchanged. -/
theorem endtime_overwrite_exact (log t1 t2 sp rows t3 : List Char)
    (h : t3.length = t2.length) :
    logFileFinal log t1 t2 sp rows t3 =
      filenameLine log ++ startTimeLine t1 ++ ("End time: ".toList ++ t3 ++ ['\n']) ++
        samplePeriodLine sp ++ rows ∧
    ("End time: ".toList ++ t3).length = ("dnE time: ".toList ++ t2).length := by
  have hlen : ("End time: ".toList ++ t3).length = ("dnE time: ".toList ++ t2).length := by
    rw [List.length_append, List.length_append, h,
      show ("End time: ".toList.length : Nat) = "dnE time: ".toList.length from rfl]
  refine ⟨?_, hlen⟩
  have key := overwrite_exact (filenameLine log ++ startTimeLine t1)
    ("dnE time: ".toList ++ t2) ("End time: ".toList ++ t3)
    (['\n'] ++ (samplePeriodLine sp ++ rows)) hlen
  unfold logFileFinal logFileBeforeQuit endstamp endPlaceholderLine
  rw [show ((filenameLine log).length + (startTimeLine t1).length : Nat) =
    (filenameLine log ++ startTimeLine t1).length from
    (List.length_append (filenameLine log) (startTimeLine t1)).symm]
  simpa [List.append_assoc] using key

/-- Witness for `endtime_overwrite_exact` on a concrete log file with two
`time.asctime()`-shaped (24-character) time strings and one data row. -/
theorem endtime_overwrite_exact_witness :
    ("Mon Jan  6 00:00:01 2020".toList.length = "Sun Jan  5 23:00:00 2020".toList.length) ∧
    (logFileFinal "jt.csv".toList "Sun Jan  5 23:00:00 2020".toList
        "Sun Jan  5 23:00:00 2020".toList "1".toList "row\n".toList
        "Mon Jan  6 00:00:01 2020".toList =
      filenameLine "jt.csv".toList ++ startTimeLine "Sun Jan  5 23:00:00 2020".toList ++
        ("End time: ".toList ++ "Mon Jan  6 00:00:01 2020".toList ++ ['\n']) ++
        samplePeriodLine "1".toList ++ "row\n".toList ∧
      ("End time: ".toList ++ "Mon Jan  6 00:00:01 2020".toList).length =
        ("dnE time: ".toList ++ "Sun Jan  5 23:00:00 2020".toList).length) :=
  ⟨by decide, endtime_overwrite_exact "jt.csv".toList "Sun Jan  5 23:00:00 2020".toList
    "Sun Jan  5 23:00:00 2020".toList "1".toList "row\n".toList
    "Mon Jan  6 00:00:01 2020".toList (by decide)⟩

/-! ## C9: sample addresses versus the sentinel -/

/-- Claim C9 counterexample: `set_address` maps an out-of-range nonzero
configured address such as 8 to the stored address 0, so a backend built
from such a configuration would emit samples whose address is not in the
I2C table and collides with the teardown sentinel. -/
theorem sample_addr_sentinel_collision_ce :
    backendSampleAddr 8 = 0 ∧ (0 : Int) ∉ i2caddress ∧
    backendSampleAddr 8 = sentinelAddr := by
  decide

/-- Claim C9 amended: for every configured address the application's own
configuration paths can produce — an index 0..7 or a value already in
the I2C address table — the address carried by every emitted sample is
one of 0x68..0x6f and therefore differs from the sentinel address 0;
only an out-of-range hand-edited configuration value breaks this. -/
theorem sample_addr_in_table (a : Int)
    (h : (0 ≤ a ∧ a < 8) ∨ a ∈ i2caddress) :
    backendSampleAddr a ∈ i2caddress ∧ backendSampleAddr a ≠ sentinelAddr := by
  rcases h with ⟨h0, h8⟩ | hm
  · have hcases : a = 0 ∨ a = 1 ∨ a = 2 ∨ a = 3 ∨ a = 4 ∨ a = 5 ∨ a = 6 ∨ a = 7 := by omega
    rcases hcases with h | h | h | h | h | h | h | h <;> subst h <;> decide
  · simp only [i2caddress, List.mem_cons, List.not_mem_nil, or_false] at hm
    rcases hm with h | h | h | h | h | h | h | h <;> subst h <;> decide

/-- Witness for `sample_addr_in_table` at configured address 3. -/
theorem sample_addr_in_table_witness :
    ((0 ≤ (3 : Int) ∧ (3 : Int) < 8) ∨ (3 : Int) ∈ i2caddress) ∧
    (backendSampleAddr 3 ∈ i2caddress ∧ backendSampleAddr 3 ≠ sentinelAddr) :=
  ⟨by decide, sample_addr_in_table 3 (by decide)⟩

/-! ## C10: set_mode stores its argument unclamped -/

/-- Claim C10 counterexample: the claim's parenthetical "wraps to another
mode for negative arguments" fails below −4: a constructor mode argument
of −5 is stored unchanged, and the table lookup raises `IndexError`
(no wrap) instead. -/
theorem set_mode_negative_wrap_ce :
    set_mode tempsensorClassMode (-5) = -5 ∧ ctorModeLookup (-5) = none := by
  decide

/-- Claim C10 amended: `set_mode` compares the pre-existing mode
attribute (class default 3, in range) rather than its argument, so any
constructor argument is stored unchanged; the constructor's table lookup
then raises for stored modes ≥ 4 and for stored modes ≤ −5, and wraps to
another mode's entry for stored modes −4..−1 (−1 reaching the 18-bit
entry, −4 the 12-bit entry), instead of rejecting or clamping the
argument itself. -/
theorem set_mode_no_clamp (arg : Int) :
    set_mode tempsensorClassMode arg = arg ∧
    ((ctorModeLookup arg).isSome ↔ -4 ≤ arg ∧ arg ≤ 3) ∧
    ctorModeLookup (-1) = some ⟨18, 3.75, 0x1ffff, 0x1c⟩ ∧
    ctorModeLookup (-4) = some ⟨12, 240, 0x7ff, 0x10⟩ ∧
    ctorModeLookup 4 = none := by
  have hsm : set_mode tempsensorClassMode arg = arg := by
    unfold set_mode tempsensorClassMode
    norm_num
  have hsome : ∀ n : Nat, (mcp3421.get? n).isSome ↔ n < mcp3421.length := by
    intro n
    constructor
    · intro hs
      by_contra hn
      rw [List.get?_eq_none.mpr (Nat.le_of_not_lt hn)] at hs
      simp at hs
    · intro hlt
      rw [List.get?_eq_get hlt]
      rfl
  refine ⟨hsm, ?_, by rfl, by rfl, by rfl⟩
  rw [ctorModeLookup, hsm]
  unfold pyListGet
  rw [show mcp3421.length = 4 from rfl]
  split_ifs with h1 h2
  · rw [hsome, show mcp3421.length = 4 from rfl]
    omega
  · rw [hsome, show mcp3421.length = 4 from rfl]
    omega
  · simp only [Option.isSome_none, Bool.false_eq_true, false_iff]
    omega
